import Mathlib

/-!
# LedgerLens — shallow embedding of the bill validation and reconciliation logic

This file embeds the logic of the two milestone apps of the `ledger_lens`
repository (`src/milestone-1/app1.py`, `src/milestone-2/app2.py`):

* JSON-like dynamic values (`JVal`) standing for the Python values that
  `json.loads` produces, together with Python truthiness, `dict.get`
  lookup, and the `float(...)` conversion (modelled as an `Option`, where
  `none` stands for a raised exception);
* the `safe_float` helper of milestone 2;
* the `safe_json` helpers of both milestones (first `\x7b` / last `\x7d`
  extraction and a model of `json.loads` over the JSON grammar);
* the category classifiers of both milestones;
* a model of `datetime.fromisoformat(...).date().isoformat()` restricted to
  dashed `YYYY-MM-DD` date strings (the format the extraction prompt asks
  for);
* the history-tab reconciliation computations of both milestones, both as
  pure engines over already-coerced rational numbers and as raw
  computations over `JVal` payloads (returning `Except Unit` so a Python
  exception is an explicit `error`);
* the upload-tab ingestion flows of both milestones over a list-modelled
  record store (duplicate-fingerprint gate, parse failure handling, field
  coercion, insertion).

Numbers are modelled as rational numbers (`ℚ`); Python's binary floating
point is not modelled, and on every concrete input appearing below the
float computation and the rational computation produce the same verdicts.
-/

/-- A JSON-like dynamic value, standing for the Python values produced by
`json.loads`: `None`, booleans, numbers (ints and floats, as `ℚ`),
strings, lists and dicts (as association lists; the JSON parser below
collapses duplicate keys the way a Python dict does). -/
inductive JVal where
  | null : JVal
  | bool : Bool → JVal
  | num : ℚ → JVal
  | str : String → JVal
  | arr : List JVal → JVal
  | obj : List (String × JVal) → JVal

/-- Python truthiness of a `JVal` (`bool(v)`): `None`, `False`, `0`, `""`,
`[]` and `\x7b\x7d` are falsy, everything else truthy. -/
def pyTruthy : JVal → Bool
  | .null => false
  | .bool b => b
  | .num q => q != 0
  | .str s => s ≠ ""
  | .arr xs => !xs.isEmpty
  | .obj fs => !fs.isEmpty

/-- Dict lookup `d.get(k)`: `none` when the key is absent.  The JSON parser
below never produces duplicate keys, so first-match lookup agrees with a
Python dict. -/
def jget (v : JVal) (k : String) : Option JVal :=
  match v with
  | .obj fs => fs.lookup k
  | _ => none

/-- Dict lookup with default, `d.get(k, dflt)`. -/
def jgetD (v : JVal) (k : String) (dflt : JVal) : JVal :=
  (jget v k).getD dflt

/-- Digits of a numeral, folded to a natural number. -/
def digitsToNat (ds : List Char) : Nat :=
  ds.foldl (fun acc c => 10 * acc + (c.toNat - 48)) 0

/-- Model of Python `float(s)` on a string: optional surrounding
whitespace, an optional sign, then `digits`, `digits.digits`, `.digits` or
`digits.`, with an optional decimal exponent.  (`inf`/`nan` forms and
digit-group underscores are not representable in this rational model and
are treated as failures.)  `none` models a raised `ValueError`. -/
def parseFloatQ (s : String) : Option ℚ :=
  let cs := s.toList.dropWhile (fun c => c = ' ' ∨ c = '\t' ∨ c = '\n' ∨ c = '\r')
  let cs := (cs.reverse.dropWhile (fun c => c = ' ' ∨ c = '\t' ∨ c = '\n' ∨ c = '\r')).reverse
  let (sign, cs) : ℚ × List Char :=
    match cs with
    | '-' :: rest => (-1, rest)
    | '+' :: rest => (1, rest)
    | _ => (1, cs)
  let (ipart, cs) := cs.span Char.isDigit
  let (fpart, cs) : List Char × List Char :=
    match cs with
    | '.' :: rest => rest.span Char.isDigit
    | _ => ([], cs)
  if ipart = [] ∧ fpart = [] then none else
  let mant : ℚ := ((digitsToNat ipart : ℚ) * 10 ^ fpart.length + (digitsToNat fpart : ℚ))
                    / 10 ^ fpart.length
  match cs with
  | [] => some (sign * mant)
  | e :: rest =>
    if e = 'e' ∨ e = 'E' then
      let (esign, rest) : ℤ × List Char :=
        match rest with
        | '-' :: r => (-1, r)
        | '+' :: r => (1, r)
        | _ => (1, rest)
      let (eds, rest) := rest.span Char.isDigit
      if eds = [] ∨ rest ≠ [] then none
      else some (sign * mant * (10 : ℚ) ^ (esign * (digitsToNat eds : ℤ)))
    else none

/-- Model of Python `float(v)` on a dynamic value: numbers are returned
exactly, booleans become 0 or 1, numeric strings are parsed, and every
other value (`None`, lists, dicts, non-numeric strings) raises — modelled
as `none`. -/
def pyFloat : JVal → Option ℚ
  | .num q => some q
  | .bool b => some (if b then 1 else 0)
  | .str s => parseFloatQ s
  | _ => none

/-- `safe_float` of milestone 2 (`app2.py` lines 47–51), applied to the
result of a `dict.get` (so a missing key arrives as Python `None`):
`float(val)` with any exception yielding `0.0`. -/
def safe_float (v : Option JVal) : ℚ :=
  ((v.getD .null) |> pyFloat).getD 0

/-- PASS/FAIL verdict of the reconciliation. -/
inductive Verdict where
  | PASSED : Verdict
  | FAILED : Verdict
deriving DecidableEq

/-- Result of the milestone-1 history-tab reconciliation
(`app1.py` lines 263–318). -/
structure Recon1 where
  subtotal : ℚ
  totalTax : ℚ
  taxInferred : Bool
  discount : ℚ
  calculatedTotal : ℚ
  tolerance : ℚ
  verdict : Verdict

/-- Result of the milestone-2 history-tab reconciliation
(`app2.py` lines 224–232). -/
structure Recon2 where
  subtotal : ℚ
  totalTax : ℚ
  discount : ℚ
  calculatedTotal : ℚ
  tolerance : ℚ
  verdict : Verdict

/-- Milestone-1 reconciliation after all coercions (`app1.py` lines
283–318): fallback tax inference, `calculated_total`, tolerance and
verdict, given the already-computed subtotal, the five tax fields, the
discount and the stored bill total. -/
def reconcile1From (subtotal gst cgst sgst igst other discount billTotal : ℚ) : Recon1 :=
  let totalTax0 := gst + cgst + sgst + igst + other
  let taxPair : ℚ × Bool :=
    if totalTax0 = 0 ∧ subtotal > 0 then
      let inferredTax := billTotal - subtotal
      if inferredTax > 0 then (inferredTax, true) else (totalTax0, false)
    else (totalTax0, false)
  let totalTax := taxPair.1
  let calculatedTotal := subtotal + totalTax - discount
  let tolerance := max 2 (2 / 100 * billTotal)
  { subtotal := subtotal
    totalTax := totalTax
    taxInferred := taxPair.2
    discount := discount
    calculatedTotal := calculatedTotal
    tolerance := tolerance
    verdict := if |billTotal - calculatedTotal| ≤ tolerance then .PASSED else .FAILED }

/-- Milestone-1 reconciliation on normalized inputs: item prices (line
269: subtotal is their sum, 0 when the list is empty), the five tax
fields, the discount and the claimed bill total. -/
def reconcile1 (prices : List ℚ) (gst cgst sgst igst other discount billTotal : ℚ) : Recon1 :=
  let subtotal := if prices = [] then 0 else prices.sum
  reconcile1From subtotal gst cgst sgst igst other discount billTotal

/-- Milestone-2 reconciliation after all coercions (`app2.py` lines
229–232): no fallback, `calculated_total`, tolerance and status. -/
def reconcile2From (subtotal totalTax discount billTotal : ℚ) : Recon2 :=
  let calculatedTotal := subtotal + totalTax - discount
  let tolerance := max 2 (2 / 100 * billTotal)
  { subtotal := subtotal
    totalTax := totalTax
    discount := discount
    calculatedTotal := calculatedTotal
    tolerance := tolerance
    verdict := if |billTotal - calculatedTotal| ≤ tolerance then .PASSED else .FAILED }

/-- Milestone-2 reconciliation on normalized inputs: item prices and the
values of the `taxes` dict (`app2.py` lines 224–229: the subtotal is the
sum of the prices, the tax is the sum of the dict's values). -/
def reconcile2 (prices taxVals : List ℚ) (discount billTotal : ℚ) : Recon2 :=
  reconcile2From prices.sum taxVals.sum discount billTotal

/-- ASCII lowercasing of one character, as Python `str.lower` acts on the
ASCII range (the keyword sets below are all ASCII). -/
def lowerChar (c : Char) : Char :=
  if 65 ≤ c.toNat ∧ c.toNat ≤ 90 then Char.ofNat (c.toNat + 32) else c

/-- Lowercase a character list. -/
def lowerL (l : List Char) : List Char := l.map lowerChar

/-- Python `x in m` on strings: does `needle` occur as a contiguous
substring of `hay`? -/
def containsSub (needle hay : List Char) : Bool :=
  match hay with
  | [] => needle.isEmpty
  | _ :: t => needle.isPrefixOf hay || containsSub needle t

/-- `any(x in m for x in kws)`: does any keyword occur as a substring? -/
def matchesAny (kws : List String) (m : List Char) : Bool :=
  kws.any (fun k => containsSub k.toList m)

/-- `classify_category` of milestone 1 (`app1.py` lines 40–57). -/
def classify_category1 (merchant : String) : String :=
  if merchant = "" then "Other"
  else
    let m := lowerL merchant.toList
    if matchesAny ["grocery", "mart", "supermarket", "basket"] m then "Groceries"
    else if matchesAny ["hospital", "medical", "pharmacy", "clinic"] m then "Medical"
    else if matchesAny ["hotel", "restaurant", "cafe", "food"] m then "Restaurant"
    else if matchesAny ["uber", "ola", "flight", "rail", "travel"] m then "Travel"
    else if matchesAny ["electricity", "water", "gas", "bill"] m then "Utilities"
    else "Other"

/-- `classify_category` of milestone 2 (`app2.py` lines 53–67): same
structure, smaller keyword sets. -/
def classify_category2 (merchant : String) : String :=
  if merchant = "" then "Other"
  else
    let m := lowerL merchant.toList
    if matchesAny ["grocery", "mart", "supermarket"] m then "Groceries"
    else if matchesAny ["hospital", "medical", "pharmacy"] m then "Medical"
    else if matchesAny ["restaurant", "cafe", "food"] m then "Restaurant"
    else if matchesAny ["uber", "ola", "flight", "rail"] m then "Travel"
    else if matchesAny ["electricity", "water", "gas"] m then "Utilities"
    else "Other"

/-- Milestone-1 classifier on a dynamic merchant value: `None` (and any
other falsy value) takes the `if not merchant` branch; a string is
classified; a truthy non-string raises at `.lower()` — modelled as
`none`. -/
def classifyDyn1 (v : JVal) : Option String :=
  match v with
  | .str s => some (classify_category1 s)
  | v => if pyTruthy v then none else some "Other"

/-- Milestone-2 classifier on a dynamic merchant value. -/
def classifyDyn2 (v : JVal) : Option String :=
  match v with
  | .str s => some (classify_category2 s)
  | v => if pyTruthy v then none else some "Other"

/-- Days of a month in the proleptic Gregorian calendar, as `datetime`
validates them. -/
def daysInMonth (y m : Nat) : Nat :=
  if m = 2 then (if (y % 4 = 0 ∧ y % 100 ≠ 0) ∨ y % 400 = 0 then 29 else 28)
  else if m = 4 ∨ m = 6 ∨ m = 9 ∨ m = 11 then 30 else 31

/-- Is `s` a valid dashed `YYYY-MM-DD` date (year 0001–9999, real
calendar date), the format `datetime.fromisoformat` accepts for a plain
date and the format the extraction prompt requests? -/
def isIsoDate (s : String) : Bool :=
  match s.toList with
  | [y1, y2, y3, y4, h1, m1, m2, h2, d1, d2] =>
    y1.isDigit && y2.isDigit && y3.isDigit && y4.isDigit &&
    h1 == '-' && h2 == '-' &&
    m1.isDigit && m2.isDigit && d1.isDigit && d2.isDigit &&
    (let y := digitsToNat [y1, y2, y3, y4]
     let mo := digitsToNat [m1, m2]
     let da := digitsToNat [d1, d2]
     decide (1 ≤ y) && decide (1 ≤ mo) && decide (mo ≤ 12) &&
     decide (1 ≤ da) && decide (da ≤ daysInMonth y mo))
  | _ => false

/-- Model of `datetime.fromisoformat(s).date().isoformat()` (`app1.py`
line 185) restricted to dashed date-only strings: a valid `YYYY-MM-DD`
string is returned unchanged, anything else raises — modelled as `none`.
(Datetime strings with a time part are outside this model.) -/
def isoDateParse (s : String) : Option String :=
  if isIsoDate s then some s else none

/-- JSON whitespace, as `json.loads` skips it. -/
def jsonWs (c : Char) : Bool := c == ' ' || c == '\t' || c == '\n' || c == '\r'

/-- Value of a hexadecimal digit. -/
def hexVal (c : Char) : Option Nat :=
  if c.isDigit then some (c.toNat - 48)
  else if 'a' ≤ c ∧ c ≤ 'f' then some (c.toNat - 87)
  else if 'A' ≤ c ∧ c ≤ 'F' then some (c.toNat - 55)
  else none

/-- Parse the body of a JSON string after the opening quote, handling the
standard escapes; strict mode, so an unescaped control character is
rejected.  (A `\u` escape denoting a lone surrogate is not representable
as a `Char` and is rejected; Python would keep it.)  Returns the decoded
characters and the input after the closing quote. -/
def parseStrAux (acc : List Char) (cs : List Char) : Option (List Char × List Char) :=
  match cs with
  | [] => none
  | '"' :: rest => some (acc.reverse, rest)
  | '\\' :: 'u' :: h1 :: h2 :: h3 :: h4 :: rest =>
    match hexVal h1, hexVal h2, hexVal h3, hexVal h4 with
    | some a, some b, some c, some d =>
      let n := ((a * 16 + b) * 16 + c) * 16 + d
      if h : n < 55296 then parseStrAux (Char.ofNatAux n (Or.inl h) :: acc) rest
      else if 57344 ≤ n then parseStrAux (Char.ofNat n :: acc) rest
      else none
    | _, _, _, _ => none
  | '\\' :: e :: rest =>
    if e = '"' ∨ e = '\\' ∨ e = '/' then parseStrAux (e :: acc) rest
    else if e = 'b' then parseStrAux (Char.ofNat 8 :: acc) rest
    else if e = 'f' then parseStrAux (Char.ofNat 12 :: acc) rest
    else if e = 'n' then parseStrAux ('\n' :: acc) rest
    else if e = 'r' then parseStrAux ('\r' :: acc) rest
    else if e = 't' then parseStrAux ('\t' :: acc) rest
    else none
  | c :: rest => if c.toNat < 32 then none else parseStrAux (c :: acc) rest

/-- Parse a JSON number at the head of the input, with the longest-match
semantics of the `json` module's number regex
`-?(0|[1-9]digits)(.digits)?([eE][+-]?digits)?`: the fractional or
exponent part is consumed only when complete.  Returns the value and the
remaining input, or `none` when no number starts here. -/
def parseJNum (cs : List Char) : Option (ℚ × List Char) :=
  let (neg, cs1) : Bool × List Char :=
    match cs with
    | '-' :: r => (true, r)
    | _ => (false, cs)
  let (ids, cs2) : List Char × List Char :=
    match cs1 with
    | '0' :: r => (['0'], r)
    | _ => cs1.span Char.isDigit
  if ids = [] then none else
  let (fds, cs3) : List Char × List Char :=
    match cs2 with
    | '.' :: r =>
      let (ds, r') := r.span Char.isDigit
      if ds = [] then ([], cs2) else (ds, r')
    | _ => ([], cs2)
  let (epow, cs4) : ℤ × List Char :=
    match cs3 with
    | e :: r =>
      if e = 'e' ∨ e = 'E' then
        let (esign, r1) : ℤ × List Char :=
          match r with
          | '-' :: r' => (-1, r')
          | '+' :: r' => (1, r')
          | _ => (1, r)
        let (eds, r2) := r1.span Char.isDigit
        if eds = [] then (0, cs3) else (esign * (digitsToNat eds : ℤ), r2)
      else (0, cs3)
    | [] => (0, cs3)
  let mant : ℚ := (digitsToNat ids : ℚ) + (digitsToNat fds : ℚ) / 10 ^ fds.length
  some ((if neg then -mant else mant) * (10 : ℚ) ^ epow, cs4)

/-- Add a parsed object member in front of the already-parsed tail, the
way a Python dict handles a duplicate key: the later value wins but the
key keeps its first position. -/
def consMember (k : String) (v : JVal) (fs : List (String × JVal)) : List (String × JVal) :=
  match fs.lookup k with
  | some v' => (k, v') :: fs.filter (fun kv => kv.1 ≠ k)
  | none => (k, v) :: fs

mutual

/-- Parse one JSON value at the head of the input (model of the `json`
module's scanner).  `fuel` bounds the recursion depth. -/
def parseVal : Nat → List Char → Option (JVal × List Char)
  | 0, _ => none
  | fuel + 1, cs =>
    let cs := cs.dropWhile jsonWs
    match cs with
    | 'n' :: 'u' :: 'l' :: 'l' :: rest => some (.null, rest)
    | 't' :: 'r' :: 'u' :: 'e' :: rest => some (.bool true, rest)
    | 'f' :: 'a' :: 'l' :: 's' :: 'e' :: rest => some (.bool false, rest)
    | '"' :: rest => (parseStrAux [] rest).map (fun p => (.str (String.mk p.1), p.2))
    | '[' :: rest =>
      let rest' := rest.dropWhile jsonWs
      match rest' with
      | ']' :: r2 => some (.arr [], r2)
      | _ => (parseElems fuel rest).map (fun p => (.arr p.1, p.2))
    | c :: rest =>
      if c = Char.ofNat 123 then
        let rest' := rest.dropWhile jsonWs
        match rest' with
        | c2 :: r2 =>
          if c2 = Char.ofNat 125 then some (.obj [], r2)
          else (parseMembers fuel rest).map (fun p => (.obj p.1, p.2))
        | [] => none
      else (parseJNum cs).map (fun p => (.num p.1, p.2))
    | [] => none

/-- Parse the comma-separated elements of a non-empty JSON array, up to
and including the closing bracket. -/
def parseElems : Nat → List Char → Option (List JVal × List Char)
  | 0, _ => none
  | fuel + 1, cs =>
    match parseVal fuel cs with
    | none => none
    | some (v, r) =>
      match r.dropWhile jsonWs with
      | ',' :: r2 =>
        (parseElems fuel r2).map (fun p => (v :: p.1, p.2))
      | ']' :: r2 => some ([v], r2)
      | _ => none

/-- Parse the members of a non-empty JSON object, up to and including the
closing brace. -/
def parseMembers : Nat → List Char → Option (List (String × JVal) × List Char)
  | 0, _ => none
  | fuel + 1, cs =>
    match cs.dropWhile jsonWs with
    | '"' :: rest =>
      match parseStrAux [] rest with
      | none => none
      | some (k, r) =>
        match r.dropWhile jsonWs with
        | ':' :: r2 =>
          match parseVal fuel r2 with
          | none => none
          | some (v, r3) =>
            match r3.dropWhile jsonWs with
            | ',' :: r4 =>
              (parseMembers fuel r4).map (fun p => (consMember (String.mk k) v p.1, p.2))
            | c :: r4 =>
              if c = Char.ofNat 125 then some ([(String.mk k, v)], r4) else none
            | [] => none
        | _ => none
    | _ => none

end

/-- Model of `json.loads`: parse a whole string as one JSON document
(trailing whitespace allowed, trailing junk rejected); `none` models a
raised `JSONDecodeError`. -/
def pyJsonLoads (s : String) : Option JVal :=
  let cs := s.toList
  match parseVal (2 * cs.length + 8) cs with
  | some (v, rest) => if (rest.dropWhile jsonWs).isEmpty then some v else none
  | none => none

/-- The substring of `text` from the first `\x7b` to the last `\x7d`
inclusive (`text[text.index("\x7b") : text.rindex("\x7d") + 1]`); `none`
when either brace is missing (the `.index` call raises). -/
def braceSlice (text : String) : Option (List Char) :=
  let cs := text.toList
  match cs.findIdx? (fun c => c = Char.ofNat 123), (cs.reverse.findIdx? (fun c => c = Char.ofNat 125)) with
  | some s, some eRev =>
    let e := cs.length - 1 - eRev
    some ((cs.drop s).take (e + 1 - s))
  | _, _ => none

/-- `safe_json` of milestone 1 (`app1.py` lines 66–72): extract the
first-brace-to-last-brace substring and parse it as JSON; any failure
(no braces, invalid JSON) yields `None`. -/
def safe_json1 (text : String) : Option JVal :=
  (braceSlice text).bind (fun sub => pyJsonLoads (String.mk sub))

/-- `safe_json` of milestone 2 (`app2.py` lines 77–83): same, but any
failure yields the empty dict. -/
def safe_json2 (text : String) : JVal :=
  (safe_json1 text).getD (.obj [])

/-- Map a fallible function over a list, failing if any element fails
(the way an exception escapes a `sum(... for i in items)` generator). -/
def mapOpt (f : α → Option β) : List α → Option (List β)
  | [] => some []
  | a :: t =>
    match f a, mapOpt f t with
    | some b, some bs => some (b :: bs)
    | _, _ => none

/-- `float(i.get("price", 0))` of milestone 1 (`app1.py` line 269) on one
line item: a non-dict element raises at `.get` — modelled as `none`. -/
def itemPrice1 (i : JVal) : Option ℚ :=
  match i with
  | .obj _ => pyFloat (jgetD i "price" (.num 0))
  | _ => none

/-- The milestone-1 history-tab computation on a stored payload
(`app1.py` lines 263–318): line items, five tax fields with bare
`float(...)` coercion, fallback inference, discount, verdict.
`Except.error ()` models a raised Python exception. -/
def app1Calc (raw : JVal) (billTotal : ℚ) : Except Unit Recon1 := do
  let items := jgetD raw "items" (.arr [])
  let subtotal : ℚ ←
    if pyTruthy items then
      match items with
      | .arr its =>
        match mapOpt itemPrice1 its with
        | some ps => pure ps.sum
        | none => .error ()
      | _ => .error ()
    else pure 0
  let taxes := jgetD raw "taxes" (.obj [])
  match taxes with
  | .obj _ =>
    match pyFloat (jgetD taxes "gst" (.num 0)), pyFloat (jgetD taxes "cgst" (.num 0)),
        pyFloat (jgetD taxes "sgst" (.num 0)), pyFloat (jgetD taxes "igst" (.num 0)),
        pyFloat (jgetD taxes "other" (.num 0)) with
    | some gst, some cgst, some sgst, some igst, some other =>
      match pyFloat (jgetD raw "discount" (.num 0)) with
      | some discount =>
        pure (reconcile1From subtotal gst cgst sgst igst other discount billTotal)
      | none => .error ()
    | _, _, _, _, _ => .error ()
  | _ => .error ()

/-- `safe_float(i.get("price"))` of milestone 2 (`app2.py` line 224) on
one line item: a non-dict element still raises at `.get`. -/
def itemPrice2 (i : JVal) : Option ℚ :=
  match i with
  | .obj _ => some (safe_float (jget i "price"))
  | _ => none

/-- The milestone-2 history-tab computation on a stored payload
(`app2.py` lines 220–232): every amount goes through `safe_float`, the
tax is the sum over the `taxes` dict's values, no fallback.  A non-list
`items` value raises at `pd.DataFrame`/iteration (except the empty dict,
which renders an empty table and contributes nothing), and a non-dict
`taxes` value raises at `.values()` — modelled as `Except.error ()`. -/
def app2Calc (raw : JVal) (billTotal : ℚ) : Except Unit Recon2 := do
  let items := jgetD raw "items" (.arr [])
  let subtotal : ℚ ←
    match items with
    | .arr its =>
      match mapOpt itemPrice2 its with
      | some ps => pure ps.sum
      | none => .error ()
    | .obj [] => pure 0
    | _ => .error ()
  let taxes := jgetD raw "taxes" (.obj [])
  match taxes with
  | .obj fs =>
    let totalTax := (fs.map (fun kv => safe_float (some kv.2))).sum
    let discount := safe_float (jget raw "discount")
    pure (reconcile2From subtotal totalTax discount billTotal)
  | _ => .error ()

/-- A stored milestone-1 receipt row (the columns the claims inspect). -/
structure Receipt1 where
  merchant : JVal
  date : Option String
  total : ℚ
  payload : JVal
  fileHash : String

/-- A stored milestone-2 receipt row. -/
structure Receipt2 where
  merchant : JVal
  date : Option JVal
  total : ℚ
  payload : JVal
  fileHash : String

/-- Outcome of one upload-tab ingestion. -/
inductive IngestOutcome where
  | duplicate : IngestOutcome
  | parseFailed : IngestOutcome
  | crashed : IngestOutcome
  | saved : IngestOutcome
deriving DecidableEq

/-- Milestone-1 upload flow (`app1.py` lines 151–205) for one file whose
extraction produced `rawText`: duplicate-fingerprint gate, `safe_json`
parse (aborting on `None`), `total` coercion with `try/except`, date
coercion with `try/except`, classification (a truthy non-string merchant
raises — `crashed`, nothing stored), then the insert. -/
def ingest1 (store : List Receipt1) (fileHash : String) (rawText : String) :
    IngestOutcome × List Receipt1 :=
  if store.any (fun r => r.fileHash == fileHash) then (.duplicate, store)
  else
    match safe_json1 rawText with
    | none => (.parseFailed, store)
    | some data =>
      let total := (pyFloat (jgetD data "total" (.num 0))).getD 0
      let date : Option String :=
        match jget data "date" with
        | some (.str s) => isoDateParse s
        | _ => none
      let merchant := jgetD data "merchant" (.str "Unknown")
      match classifyDyn1 merchant with
      | none => (.crashed, store)
      | some _category => (.saved, store ++ [⟨merchant, date, total, data, fileHash⟩])

/-- Milestone-2 upload flow (`app2.py` lines 128–170): duplicate gate,
`safe_json` parse (an empty dict on failure — ingestion continues),
classification, then the insert with `date` stored verbatim and `total`
through `safe_float`. -/
def ingest2 (store : List Receipt2) (fileHash : String) (rawText : String) :
    IngestOutcome × List Receipt2 :=
  if store.any (fun r => r.fileHash == fileHash) then (.duplicate, store)
  else
    let data := safe_json2 rawText
    let merchant := jgetD data "merchant" (.str "Unknown")
    match classifyDyn2 merchant with
    | none => (.crashed, store)
    | some _category =>
      (.saved, store ++ [⟨merchant, jget data "date", safe_float (jget data "total"), data, fileHash⟩])

/-- View a dynamic value as a string, if it is one. -/
def JVal.asStr : JVal → Option String
  | .str s => some s
  | _ => none

/-- A sequence of milestone-1 ingestions (fingerprint, raw extraction
text), folded over the store. -/
def runIngest1 (s : List Receipt1) (ups : List (String × String)) : List Receipt1 :=
  ups.foldl (fun st p => (ingest1 st p.1 p.2).2) s

/-- A sequence of milestone-2 ingestions, folded over the store. -/
def runIngest2 (s : List Receipt2) (ups : List (String × String)) : List Receipt2 :=
  ups.foldl (fun st p => (ingest2 st p.1 p.2).2) s

/-- The milestone-2 payload shape the extraction contract promises:
line items that are dicts, a `taxes` dict, and a discount value of any
type. -/
def shapedPayload (its : List (List (String × JVal))) (tfs : List (String × JVal))
    (dv : JVal) : JVal :=
  .obj [("items", .arr (its.map JVal.obj)), ("taxes", .obj tfs), ("discount", dv)]

/-- A stored payload whose `gst` field is the non-numeric string
`"N/A"`: a shape the extraction contract allows but whose amounts are
malformed. -/
def badTaxPayload : JVal :=
  .obj [("items", .arr [.obj [("name", .str "x"), ("price", .num 90)]]),
        ("taxes", .obj [("gst", .str "N/A"), ("cgst", .num 0), ("sgst", .num 0),
                        ("igst", .num 0), ("other", .num 0)]),
        ("discount", .num 0)]

/-- An `if`-based verdict equals PASSED exactly when its condition holds. -/
theorem verdictIfIff (p : Prop) [Decidable p] :
    (if p then Verdict.PASSED else Verdict.FAILED) = Verdict.PASSED ↔ p := by
  split_ifs with h <;> simp [h]

/-- The milestone-1 subtotal is the sum of the prices (0 for no items). -/
theorem reconcile1_subtotal (prices : List ℚ) (g c s i o d bt : ℚ) :
    (reconcile1 prices g c s i o d bt).subtotal = prices.sum := by
  by_cases hp : prices = [] <;> simp [reconcile1, reconcile1From, hp]

/-- C1: for every normalized input, the engines of both milestones compute
the subtotal as the sum of the item prices, the milestone-2 itemized tax as
gst + cgst + sgst + igst + other, the reconciled total as
subtotal + effectiveTax − discount, and issue PASSED exactly when
|claimedTotal − reconciledTotal| ≤ max(2, 0.02·claimedTotal), the
tolerance being computed from the claimed total. -/
theorem c1_reconciliation_formula (prices : List ℚ) (g c s i o d bt : ℚ) :
    (reconcile1 prices g c s i o d bt).subtotal = prices.sum ∧
    (reconcile1 prices g c s i o d bt).calculatedTotal =
      (reconcile1 prices g c s i o d bt).subtotal +
        (reconcile1 prices g c s i o d bt).totalTax - d ∧
    (reconcile1 prices g c s i o d bt).tolerance = max 2 (2 / 100 * bt) ∧
    ((reconcile1 prices g c s i o d bt).verdict = .PASSED ↔
      |bt - (reconcile1 prices g c s i o d bt).calculatedTotal| ≤
        (reconcile1 prices g c s i o d bt).tolerance) ∧
    (reconcile2 prices [g, c, s, i, o] d bt).subtotal = prices.sum ∧
    (reconcile2 prices [g, c, s, i, o] d bt).totalTax = g + c + s + i + o ∧
    (reconcile2 prices [g, c, s, i, o] d bt).calculatedTotal =
      prices.sum + (g + c + s + i + o) - d ∧
    (reconcile2 prices [g, c, s, i, o] d bt).tolerance = max 2 (2 / 100 * bt) ∧
    ((reconcile2 prices [g, c, s, i, o] d bt).verdict = .PASSED ↔
      |bt - (reconcile2 prices [g, c, s, i, o] d bt).calculatedTotal| ≤
        max 2 (2 / 100 * bt)) := by
  refine ⟨reconcile1_subtotal prices g c s i o d bt, rfl, rfl, verdictIfIff _, rfl, ?_, ?_,
    rfl, verdictIfIff _⟩
  · simp [reconcile2, reconcile2From]
    ring
  · simp [reconcile2, reconcile2From]
    ring

/-- C9: at the tolerance boundary with claimed total 100 the tolerance is
2, a reconciled total of 98 is PASSED (inclusive boundary) and 97.99 is
FAILED, in both milestones. -/
theorem c9_tolerance_boundary :
    (reconcile1 [90] 8 0 0 0 0 0 100).calculatedTotal = 98 ∧
    (reconcile1 [90] 8 0 0 0 0 0 100).tolerance = 2 ∧
    (reconcile1 [90] 8 0 0 0 0 0 100).verdict = .PASSED ∧
    (reconcile1 [90] (799/100) 0 0 0 0 0 100).calculatedTotal = 9799/100 ∧
    (reconcile1 [90] (799/100) 0 0 0 0 0 100).verdict = .FAILED ∧
    (reconcile2 [90] [8, 0, 0, 0, 0] 0 100).calculatedTotal = 98 ∧
    (reconcile2 [90] [8, 0, 0, 0, 0] 0 100).tolerance = 2 ∧
    (reconcile2 [90] [8, 0, 0, 0, 0] 0 100).verdict = .PASSED ∧
    (reconcile2 [90] [(799/100), 0, 0, 0, 0] 0 100).calculatedTotal = 9799/100 ∧
    (reconcile2 [90] [(799/100), 0, 0, 0, 0] 0 100).verdict = .FAILED := by
  refine ⟨?_, ?_, ?_, ?_, ?_, ?_, ?_, ?_, ?_, ?_⟩ <;>
    norm_num [reconcile1, reconcile1From, reconcile2, reconcile2From, abs_le]

/-- C10: whenever the milestone-1 fallback fires (itemized tax 0, positive
subtotal, positive inferred tax) and the discount is 0, the calculated
total equals the claimed total and the verdict is PASSED, whatever the
individual prices. -/
theorem c10_fallback_pass (prices : List ℚ) (g c s i o bt : ℚ)
    (h1 : g + c + s + i + o = 0) (h2 : prices.sum > 0) (h3 : bt - prices.sum > 0) :
    (reconcile1 prices g c s i o 0 bt).calculatedTotal = bt ∧
    (reconcile1 prices g c s i o 0 bt).verdict = .PASSED := by
  have hne : prices ≠ [] := fun h => by simp [h] at h2
  constructor
  · simp [reconcile1, reconcile1From, hne, h1, h2, h3]
  · have hc : bt - (prices.sum + (bt - prices.sum) - 0) = 0 := by ring
    simp [reconcile1, reconcile1From, hne, h1, h2, h3, hc]

/-- C10 witness: the fallback-and-zero-discount hypothesis at a concrete
input. -/
theorem c10_fallback_pass_witness :
    (reconcile1 [90] 0 0 0 0 0 0 99).calculatedTotal = 99 ∧
    (reconcile1 [90] 0 0 0 0 0 0 99).verdict = .PASSED :=
  c10_fallback_pass [90] 0 0 0 0 0 99 (by norm_num) (by norm_num) (by norm_num)

/-- C2 counterexample: on the claim's own scenario (one item of 90, all
taxes zero, no discount, claimed total 99) the milestone-2 history
reconciliation — one of the two engines the claim describes — applies no
fallback: the reconciled total stays 90 and the verdict is FAILED, not
PASSED. -/
theorem c2_counterexample :
    (reconcile2 [90] [0, 0, 0, 0, 0] 0 99).calculatedTotal = 90 ∧
    (reconcile2 [90] [0, 0, 0, 0, 0] 0 99).verdict = .FAILED := by
  refine ⟨?_, ?_⟩ <;> norm_num [reconcile2, reconcile2From, abs_le]

/-- C2 (amended): the milestone-1 engine applies the tax-inference
fallback exactly when the itemized tax sum is 0 and the subtotal is
positive — inferring claimedTotal − subtotal when that is positive and
flagging it, keeping 0 otherwise — and on the scenario's input yields
subtotal 90, effective tax 9, reconciled total 99, PASSED, inferred;
the milestone-2 engine has no fallback and yields FAILED there. -/
theorem c2_fallback_milestone1 :
    (∀ (prices : List ℚ) (g c s i o d bt : ℚ),
      (g + c + s + i + o = 0 → prices.sum > 0 → bt - prices.sum > 0 →
        (reconcile1 prices g c s i o d bt).totalTax = bt - prices.sum ∧
        (reconcile1 prices g c s i o d bt).taxInferred = true) ∧
      (g + c + s + i + o = 0 → prices.sum > 0 → ¬(bt - prices.sum > 0) →
        (reconcile1 prices g c s i o d bt).totalTax = 0 ∧
        (reconcile1 prices g c s i o d bt).taxInferred = false) ∧
      (¬(g + c + s + i + o = 0 ∧ prices.sum > 0) →
        (reconcile1 prices g c s i o d bt).totalTax = g + c + s + i + o ∧
        (reconcile1 prices g c s i o d bt).taxInferred = false)) ∧
    (reconcile1 [90] 0 0 0 0 0 0 99).subtotal = 90 ∧
    (reconcile1 [90] 0 0 0 0 0 0 99).totalTax = 9 ∧
    (reconcile1 [90] 0 0 0 0 0 0 99).taxInferred = true ∧
    (reconcile1 [90] 0 0 0 0 0 0 99).calculatedTotal = 99 ∧
    (reconcile1 [90] 0 0 0 0 0 0 99).verdict = .PASSED ∧
    (reconcile2 [90] [0, 0, 0, 0, 0] 0 99).verdict = .FAILED := by
  refine ⟨?_, ?_, ?_, ?_, ?_, ?_, ?_⟩
  · intro prices g c s i o d bt
    refine ⟨?_, ?_, ?_⟩
    · intro h1 h2 h3
      have hne : prices ≠ [] := fun h => by simp [h] at h2
      refine ⟨?_, ?_⟩ <;> simp [reconcile1, reconcile1From, hne, h1, h2, h3]
    · intro h1 h2 h3
      have hne : prices ≠ [] := fun h => by simp [h] at h2
      refine ⟨?_, ?_⟩ <;> simp [reconcile1, reconcile1From, hne, h1, h2, h3]
    · intro h
      by_cases hne : prices = []
      · have h0 : ¬((g + c + s + i + o = 0) ∧ (0 : ℚ) > 0) := by
          rintro ⟨-, h2⟩
          exact absurd h2 (by norm_num)
        refine ⟨?_, ?_⟩ <;> simp [reconcile1, reconcile1From, hne, h0]
      · have h0 : ¬((g + c + s + i + o = 0) ∧ prices.sum > 0) := h
        refine ⟨?_, ?_⟩ <;> simp [reconcile1, reconcile1From, hne, h0]
  all_goals norm_num [reconcile1, reconcile1From, reconcile2, reconcile2From, abs_le]

/-- C2 witness: the fallback-trigger hypotheses hold at a concrete input
and the theorem's universal part applies there. -/
theorem c2_fallback_milestone1_witness :
    (reconcile1 [40, 50] 0 0 0 0 0 0 99).totalTax = 99 - [40, 50].sum ∧
    (reconcile1 [40, 50] 0 0 0 0 0 0 99).taxInferred = true :=
  (c2_fallback_milestone1.1 [40, 50] 0 0 0 0 0 0 99).1 (by norm_num) (by norm_num) (by norm_num)

/-- C6 counterexample: with one item of −100, zero taxes and discount and
a claimed total of −100, the subtotal is −100 (not floored at 0) and the
negative reconciled total receives PASSED, in both milestones. -/
theorem c6_counterexample :
    (reconcile1 [-100] 0 0 0 0 0 0 (-100)).subtotal = -100 ∧
    (reconcile1 [-100] 0 0 0 0 0 0 (-100)).calculatedTotal = -100 ∧
    (reconcile1 [-100] 0 0 0 0 0 0 (-100)).verdict = .PASSED ∧
    (reconcile2 [-100] [0, 0, 0, 0, 0] 0 (-100)).subtotal = -100 ∧
    (reconcile2 [-100] [0, 0, 0, 0, 0] 0 (-100)).calculatedTotal = -100 ∧
    (reconcile2 [-100] [0, 0, 0, 0, 0] 0 (-100)).verdict = .PASSED := by
  refine ⟨?_, ?_, ?_, ?_, ?_, ?_⟩ <;>
    norm_num [reconcile1, reconcile1From, reconcile2, reconcile2From, abs_le]

/-- C6 (amended): neither engine floors the subtotal or the tax at 0 —
they are the plain sums of their possibly negative inputs — the engines
are total functions, and a negative reconciled total is judged by the
same tolerance rule as any other value (so it can be PASSED), not forced
to FAILED. -/
theorem c6_no_floor (prices tv : List ℚ) (g c s i o d bt : ℚ) :
    (reconcile1 prices g c s i o d bt).subtotal = prices.sum ∧
    (reconcile2 prices tv d bt).subtotal = prices.sum ∧
    (reconcile2 prices tv d bt).totalTax = tv.sum ∧
    ((reconcile1 prices g c s i o d bt).calculatedTotal < 0 →
      ((reconcile1 prices g c s i o d bt).verdict = .PASSED ↔
        |bt - (reconcile1 prices g c s i o d bt).calculatedTotal| ≤
          (reconcile1 prices g c s i o d bt).tolerance)) ∧
    ((reconcile2 prices tv d bt).calculatedTotal < 0 →
      ((reconcile2 prices tv d bt).verdict = .PASSED ↔
        |bt - (reconcile2 prices tv d bt).calculatedTotal| ≤
          (reconcile2 prices tv d bt).tolerance)) :=
  ⟨reconcile1_subtotal prices g c s i o d bt, rfl, rfl,
    fun _ => verdictIfIff _, fun _ => verdictIfIff _⟩

/-- C6 witness: a negative reconciled total at a concrete input, judged by
the tolerance rule via the theorem. -/
theorem c6_no_floor_witness :
    (reconcile1 [-5] 0 0 0 0 0 0 100).verdict = .PASSED ↔
      |(100 : ℚ) - (reconcile1 [-5] 0 0 0 0 0 0 100).calculatedTotal| ≤
        (reconcile1 [-5] 0 0 0 0 0 0 100).tolerance :=
  (c6_no_floor [-5] [] 0 0 0 0 0 0 100).2.2.2.1
    (by norm_num [reconcile1, reconcile1From])

/-- Mapping the milestone-2 price coercion over dict-shaped line items
always succeeds and applies `safe_float` to each `price` field. -/
theorem mapOpt_itemPrice2 (its : List (List (String × JVal))) :
    mapOpt itemPrice2 (its.map JVal.obj) =
      some (its.map (fun fs => safe_float (fs.lookup "price"))) := by
  induction its with
  | nil => rfl
  | cons a t ih => simp [mapOpt, itemPrice2, jget, ih]

/-- The milestone-2 history computation never raises on a payload of the
contract's shape, whatever the types of the leaf values. -/
theorem app2Calc_shaped_ok (its : List (List (String × JVal))) (tfs : List (String × JVal))
    (dv : JVal) (bt : ℚ) : (app2Calc (shapedPayload its tfs dv) bt).isOk = true := by
  unfold app2Calc shapedPayload
  simp [jgetD, jget, List.lookup, mapOpt_itemPrice2 its, pure, Except.pure, Except.isOk,
    Except.toBool, bind, Except.bind]

/-- C3: milestone-2's `safe_float` is total — a numeric value is returned
exactly and every missing or malformed value (absent key, `None`,
non-numeric string, list, dict) becomes 0 — and its reconciliation
produces a verdict on every contract-shaped payload; but milestone 1's
history-tab coercion uses bare `float(...)` and raises (no verdict) on a
payload whose `gst` field is the string `"N/A"`, which milestone 2
handles. -/
theorem c3_amount_coercion :
    app1Calc badTaxPayload 100 = .error () ∧
    (app2Calc badTaxPayload 100).isOk = true ∧
    (∀ q : ℚ, safe_float (some (.num q)) = q) ∧
    safe_float none = 0 ∧
    safe_float (some .null) = 0 ∧
    safe_float (some (.str "N/A")) = 0 ∧
    (∀ xs : List JVal, safe_float (some (.arr xs)) = 0) ∧
    (∀ fs : List (String × JVal), safe_float (some (.obj fs)) = 0) ∧
    (∀ (its : List (List (String × JVal))) (tfs : List (String × JVal)) (dv : JVal) (bt : ℚ),
      (app2Calc (shapedPayload its tfs dv) bt).isOk = true) :=
  ⟨rfl, rfl, fun _ => rfl, rfl, rfl, rfl, fun _ => rfl, fun _ => rfl, app2Calc_shaped_ok⟩

/-- C4: on raw extraction text with no braces, milestone 1's `safe_json`
yields `None` and its upload flow aborts with the store unchanged; but
milestone 2's `safe_json` yields an empty payload and its upload flow
still inserts a defaulted record (merchant `"Unknown"`, no date, total 0)
carrying the file's fingerprint, which then blocks any re-upload of the
same file as a duplicate. -/
theorem c4_parse_failure :
    safe_json1 "Sorry, I cannot process this image." = none ∧
    ingest1 [] "h1" "Sorry, I cannot process this image." = (.parseFailed, []) ∧
    safe_json2 "Sorry, I cannot process this image." = .obj [] ∧
    (ingest2 [] "h1" "Sorry, I cannot process this image.").1 = .saved ∧
    ((ingest2 [] "h1" "Sorry, I cannot process this image.").2.map
      (fun r => (r.merchant.asStr, r.date, r.total, r.fileHash))) =
      [(some "Unknown", none, 0, "h1")] ∧
    (ingest2 ((ingest2 [] "h1" "Sorry, I cannot process this image.").2) "h1" "retry").1 =
      .duplicate :=
  ⟨rfl, rfl, rfl, rfl, rfl, rfl⟩

/-- One milestone-1 ingestion either leaves the store unchanged or — only
when the fingerprint was absent — appends exactly one record carrying it. -/
theorem ingest1_hashes (s : List Receipt1) (h t : String) :
    (ingest1 s h t).2 = s ∨
    (s.any (fun r => r.fileHash == h) = false ∧
      (ingest1 s h t).2.map (fun r => r.fileHash) =
        s.map (fun r => r.fileHash) ++ [h]) := by
  unfold ingest1
  by_cases hd : s.any (fun r => r.fileHash == h) = true
  · simp [hd]
  · rw [Bool.not_eq_true] at hd
    rcases hj : safe_json1 t with _ | data
    · simp [hd, hj]
    · rcases hc : classifyDyn1 (jgetD data "merchant" (.str "Unknown")) with _ | cat
      · simp [hd, hj, hc]
      · right
        refine ⟨hd, ?_⟩
        simp [hd, hj, hc]

/-- One milestone-2 ingestion, likewise. -/
theorem ingest2_hashes (s : List Receipt2) (h t : String) :
    (ingest2 s h t).2 = s ∨
    (s.any (fun r => r.fileHash == h) = false ∧
      (ingest2 s h t).2.map (fun r => r.fileHash) =
        s.map (fun r => r.fileHash) ++ [h]) := by
  unfold ingest2
  by_cases hd : s.any (fun r => r.fileHash == h) = true
  · simp [hd]
  · rw [Bool.not_eq_true] at hd
    rcases hc : classifyDyn2 (jgetD (safe_json2 t) "merchant" (.str "Unknown")) with _ | cat
    · simp [hd, hc]
    · right
      refine ⟨hd, ?_⟩
      simp [hd, hc]

/-- If no stored record carries fingerprint `h`, then `h` is not among the
stored fingerprints. -/
theorem notMem_of_any_false {α : Type} (f : α → String) (s : List α) (h : String)
    (hd : s.any (fun r => f r == h) = false) : h ∉ s.map f := by
  intro hmem
  rcases List.mem_map.mp hmem with ⟨r, hr, hrh⟩
  have := List.any_eq_false.mp hd r hr
  simp [hrh] at this

/-- Any sequence of milestone-1 ingestions preserves fingerprint
uniqueness of the store. -/
theorem runIngest1_nodup (ups : List (String × String)) (s : List Receipt1)
    (hs : (s.map (fun r => r.fileHash)).Nodup) :
    ((runIngest1 s ups).map (fun r => r.fileHash)).Nodup := by
  induction ups generalizing s with
  | nil => exact hs
  | cons p t ih =>
    have hstep := ingest1_hashes s p.1 p.2
    have h1 : runIngest1 s (p :: t) = runIngest1 (ingest1 s p.1 p.2).2 t := rfl
    rw [h1]
    rcases hstep with heq | ⟨hany, heq⟩
    · exact ih _ (by rw [heq]; exact hs)
    · refine ih _ ?_
      rw [heq]
      simp [List.nodup_append, hs, notMem_of_any_false (fun r => r.fileHash) s p.1 hany]

/-- Any sequence of milestone-2 ingestions preserves fingerprint
uniqueness of the store. -/
theorem runIngest2_nodup (ups : List (String × String)) (s : List Receipt2)
    (hs : (s.map (fun r => r.fileHash)).Nodup) :
    ((runIngest2 s ups).map (fun r => r.fileHash)).Nodup := by
  induction ups generalizing s with
  | nil => exact hs
  | cons p t ih =>
    have hstep := ingest2_hashes s p.1 p.2
    have h1 : runIngest2 s (p :: t) = runIngest2 (ingest2 s p.1 p.2).2 t := rfl
    rw [h1]
    rcases hstep with heq | ⟨hany, heq⟩
    · exact ih _ (by rw [heq]; exact hs)
    · refine ih _ ?_
      rw [heq]
      simp [List.nodup_append, hs, notMem_of_any_false (fun r => r.fileHash) s p.1 hany]

/-- C5: in both milestones, ingesting a file whose fingerprint is already
stored is rejected as a duplicate with the store unchanged, and after any
sequence of ingestions from a fingerprint-unique store the store still
holds at most one record per fingerprint. -/
theorem c5_fingerprint_unique :
    (∀ (s : List Receipt1) (h t : String), s.any (fun r => r.fileHash == h) = true →
      ingest1 s h t = (.duplicate, s)) ∧
    (∀ (s : List Receipt2) (h t : String), s.any (fun r => r.fileHash == h) = true →
      ingest2 s h t = (.duplicate, s)) ∧
    (∀ (s : List Receipt1) (ups : List (String × String)),
      (s.map (fun r => r.fileHash)).Nodup →
      ((runIngest1 s ups).map (fun r => r.fileHash)).Nodup) ∧
    (∀ (s : List Receipt2) (ups : List (String × String)),
      (s.map (fun r => r.fileHash)).Nodup →
      ((runIngest2 s ups).map (fun r => r.fileHash)).Nodup) := by
  refine ⟨?_, ?_, fun s ups hs => runIngest1_nodup ups s hs,
    fun s ups hs => runIngest2_nodup ups s hs⟩
  · intro s h t hd
    unfold ingest1
    simp [hd]
  · intro s h t hd
    unfold ingest2
    simp [hd]

/-- C5 witness: a concrete duplicate rejection and a concrete ingestion
sequence that re-uses a fingerprint, via the theorem. -/
theorem c5_fingerprint_unique_witness :
    ingest1 [⟨.str "m", none, 0, .obj [], "h"⟩] "h" "x" =
      (.duplicate, [⟨.str "m", none, 0, .obj [], "h"⟩]) ∧
    ((runIngest1 [] [("h", "x"), ("h", "x")]).map (fun r => r.fileHash)).Nodup :=
  ⟨c5_fingerprint_unique.1 [⟨.str "m", none, 0, .obj [], "h"⟩] "h" "x" (by rfl),
   c5_fingerprint_unique.2.2.1 [] [("h", "x"), ("h", "x")] (by simp)⟩

/-- C7 counterexample: milestone 2 stores the extracted date verbatim —
ingesting a payload whose date is the malformed string `"13/05/2024"`
produces a record carrying exactly that malformed string. -/
theorem c7_counterexample :
    ((ingest2 [] "h2" "\x7b\"merchant\": \"Shop\", \"date\": \"13/05/2024\"\x7d").2.map
      (fun r => (r.merchant.asStr, r.date.bind JVal.asStr, r.fileHash))) =
      [(some "Shop", some "13/05/2024", "h2")] ∧
    isIsoDate "13/05/2024" = false :=
  ⟨rfl, rfl⟩

/-- C7 (amended): milestone 1 coerces the extracted date — every record
it stores has an absent date or a valid `YYYY-MM-DD` date, so an invalid
date string is dropped there; milestone 2 stores the extracted date value
verbatim, malformed or not. -/
theorem c7_date_coercion :
    (∀ (s : List Receipt1) (h t : String) (r : Receipt1), r ∈ (ingest1 s h t).2 →
      r ∈ s ∨ r.date = none ∨ ∃ d, r.date = some d ∧ isIsoDate d = true) ∧
    (∀ (s : List Receipt2) (h t : String) (r : Receipt2), r ∈ (ingest2 s h t).2 →
      r ∈ s ∨ r.date = jget r.payload "date") := by
  constructor
  · intro s h t r hr
    unfold ingest1 at hr
    by_cases hd : s.any (fun x => x.fileHash == h) = true
    · simp [hd] at hr
      exact Or.inl hr
    · rw [Bool.not_eq_true] at hd
      rcases hj : safe_json1 t with _ | data
      · simp [hd, hj] at hr
        exact Or.inl hr
      · rcases hc : classifyDyn1 (jgetD data "merchant" (.str "Unknown")) with _ | cat
        · simp [hd, hj, hc] at hr
          exact Or.inl hr
        · simp [hd, hj, hc] at hr
          rcases hr with hr | hr
          · exact Or.inl hr
          · right
            rw [hr]
            rcases hjd : jget data "date" with _ | v
            · simp [hjd]
            · cases v with
              | str sd =>
                simp [hjd, isoDateParse]
                by_cases hiso : isIsoDate sd = true
                · exact Or.inr ⟨sd, ⟨hiso, rfl⟩, hiso⟩
                · exact Or.inl (by simpa using hiso)
              | null => simp [hjd]
              | bool b => simp [hjd]
              | num q => simp [hjd]
              | arr xs => simp [hjd]
              | obj fs => simp [hjd]
  · intro s h t r hr
    unfold ingest2 at hr
    by_cases hd : s.any (fun x => x.fileHash == h) = true
    · simp [hd] at hr
      exact Or.inl hr
    · rw [Bool.not_eq_true] at hd
      rcases hc : classifyDyn2 (jgetD (safe_json2 t) "merchant" (.str "Unknown")) with _ | cat
      · simp [hd, hc] at hr
        exact Or.inl hr
      · simp [hd, hc] at hr
        rcases hr with hr | hr
        · exact Or.inl hr
        · right
          rw [hr]

/-- C7 witness: the record stored for a concrete valid-date ingestion, run
through the theorem. -/
theorem c7_date_coercion_witness :
    ((⟨.str "Unknown", some "2024-05-13", 0, .obj [("date", .str "2024-05-13")],
        "h3"⟩ : Receipt1) ∈ (ingest1 [] "h3" "\x7b\"date\": \"2024-05-13\"\x7d").2) ∧
    ((⟨.str "Unknown", some "2024-05-13", 0, .obj [("date", .str "2024-05-13")],
        "h3"⟩ : Receipt1) ∈ ([] : List Receipt1) ∨
      (⟨.str "Unknown", some "2024-05-13", 0, .obj [("date", .str "2024-05-13")],
        "h3"⟩ : Receipt1).date = none ∨
      ∃ d, (⟨.str "Unknown", some "2024-05-13", 0, .obj [("date", .str "2024-05-13")],
        "h3"⟩ : Receipt1).date = some d ∧ isIsoDate d = true) :=
  have hm : (⟨.str "Unknown", some "2024-05-13", 0, .obj [("date", .str "2024-05-13")],
      "h3"⟩ : Receipt1) ∈ (ingest1 [] "h3" "\x7b\"date\": \"2024-05-13\"\x7d").2 :=
    List.Mem.head []
  ⟨hm, c7_date_coercion.1 [] "h3" "\x7b\"date\": \"2024-05-13\"\x7d" _ hm⟩


/-- Keyword matching distributes over concatenated keyword sets. -/
theorem matchesAny_append (k1 k2 : List String) (m : List Char) :
    matchesAny (k1 ++ k2) m = (matchesAny k1 m || matchesAny k2 m) := by
  simp [matchesAny, List.any_append]

/-- A non-empty merchant classifies as Other in milestone 1 exactly when
none of the 21 keywords occurs in its lowercased form. -/
theorem classify1_other_iff (m : String) (hm : m ≠ "") :
    classify_category1 m = "Other" ↔
      matchesAny (["grocery", "mart", "supermarket", "basket"] ++
        ["hospital", "medical", "pharmacy", "clinic"] ++
        ["hotel", "restaurant", "cafe", "food"] ++
        ["uber", "ola", "flight", "rail", "travel"] ++
        ["electricity", "water", "gas", "bill"]) (lowerL m.toList) = false := by
  unfold classify_category1
  simp only [if_neg hm, matchesAny_append, Bool.or_eq_false_iff]
  split_ifs with h1 h2 h3 h4 h5
  · exact iff_of_false (by decide) (by intro hc; simp_all)
  · exact iff_of_false (by decide) (by intro hc; simp_all)
  · exact iff_of_false (by decide) (by intro hc; simp_all)
  · exact iff_of_false (by decide) (by intro hc; simp_all)
  · exact iff_of_false (by decide) (by intro hc; simp_all)
  · simp only [Bool.not_eq_true] at h1 h2 h3 h4 h5
    exact iff_of_true rfl ⟨⟨⟨⟨h1, h2⟩, h3⟩, h4⟩, h5⟩

/-- A non-empty merchant classifies as Other in milestone 2 exactly when
none of its 16 keywords occurs in its lowercased form. -/
theorem classify2_other_iff (m : String) (hm : m ≠ "") :
    classify_category2 m = "Other" ↔
      matchesAny (["grocery", "mart", "supermarket"] ++
        ["hospital", "medical", "pharmacy"] ++
        ["restaurant", "cafe", "food"] ++
        ["uber", "ola", "flight", "rail"] ++
        ["electricity", "water", "gas"]) (lowerL m.toList) = false := by
  unfold classify_category2
  simp only [if_neg hm, matchesAny_append, Bool.or_eq_false_iff]
  split_ifs with h1 h2 h3 h4 h5
  · exact iff_of_false (by decide) (by intro hc; simp_all)
  · exact iff_of_false (by decide) (by intro hc; simp_all)
  · exact iff_of_false (by decide) (by intro hc; simp_all)
  · exact iff_of_false (by decide) (by intro hc; simp_all)
  · exact iff_of_false (by decide) (by intro hc; simp_all)
  · simp only [Bool.not_eq_true] at h1 h2 h3 h4 h5
    exact iff_of_true rfl ⟨⟨⟨⟨h1, h2⟩, h3⟩, h4⟩, h5⟩

/-- A string with no characters is the empty string. -/
theorem strToList_eq_nil (m : String) (h : m.toList = []) : m = "" := by
  cases m with
  | mk data => simpa [String.toList] using congrArg String.mk h

/-- C8: both classifiers are total functions that test the lowercased
merchant against their fixed keyword sets in the priority order
Groceries, Medical, Restaurant, Travel, Utilities, return the first match,
return Other exactly when the input is empty or matches no keyword (so a
keyword-bearing input never yields Other), and depend only on the
lowercased input (case-insensitivity); determinism is inherent, as they
are functions. -/
theorem c8_classifier :
    classify_category1 "" = "Other" ∧
    classify_category2 "" = "Other" ∧
    (∀ m : String,
      (matchesAny ["grocery", "mart", "supermarket", "basket"] (lowerL m.toList) = true →
        classify_category1 m = "Groceries") ∧
      (matchesAny ["grocery", "mart", "supermarket", "basket"] (lowerL m.toList) = false →
        matchesAny ["hospital", "medical", "pharmacy", "clinic"] (lowerL m.toList) = true →
        classify_category1 m = "Medical") ∧
      (matchesAny ["grocery", "mart", "supermarket", "basket"] (lowerL m.toList) = false →
        matchesAny ["hospital", "medical", "pharmacy", "clinic"] (lowerL m.toList) = false →
        matchesAny ["hotel", "restaurant", "cafe", "food"] (lowerL m.toList) = true →
        classify_category1 m = "Restaurant") ∧
      (matchesAny ["grocery", "mart", "supermarket", "basket"] (lowerL m.toList) = false →
        matchesAny ["hospital", "medical", "pharmacy", "clinic"] (lowerL m.toList) = false →
        matchesAny ["hotel", "restaurant", "cafe", "food"] (lowerL m.toList) = false →
        matchesAny ["uber", "ola", "flight", "rail", "travel"] (lowerL m.toList) = true →
        classify_category1 m = "Travel") ∧
      (matchesAny ["grocery", "mart", "supermarket", "basket"] (lowerL m.toList) = false →
        matchesAny ["hospital", "medical", "pharmacy", "clinic"] (lowerL m.toList) = false →
        matchesAny ["hotel", "restaurant", "cafe", "food"] (lowerL m.toList) = false →
        matchesAny ["uber", "ola", "flight", "rail", "travel"] (lowerL m.toList) = false →
        matchesAny ["electricity", "water", "gas", "bill"] (lowerL m.toList) = true →
        classify_category1 m = "Utilities") ∧
      (matchesAny (["grocery", "mart", "supermarket", "basket"] ++
          ["hospital", "medical", "pharmacy", "clinic"] ++
          ["hotel", "restaurant", "cafe", "food"] ++
          ["uber", "ola", "flight", "rail", "travel"] ++
          ["electricity", "water", "gas", "bill"]) (lowerL m.toList) = false →
        classify_category1 m = "Other") ∧
      (matchesAny (["grocery", "mart", "supermarket", "basket"] ++
          ["hospital", "medical", "pharmacy", "clinic"] ++
          ["hotel", "restaurant", "cafe", "food"] ++
          ["uber", "ola", "flight", "rail", "travel"] ++
          ["electricity", "water", "gas", "bill"]) (lowerL m.toList) = true →
        classify_category1 m ≠ "Other")) ∧
    (∀ m : String,
      (matchesAny ["grocery", "mart", "supermarket"] (lowerL m.toList) = true →
        classify_category2 m = "Groceries") ∧
      (matchesAny ["grocery", "mart", "supermarket"] (lowerL m.toList) = false →
        matchesAny ["hospital", "medical", "pharmacy"] (lowerL m.toList) = true →
        classify_category2 m = "Medical") ∧
      (matchesAny ["grocery", "mart", "supermarket"] (lowerL m.toList) = false →
        matchesAny ["hospital", "medical", "pharmacy"] (lowerL m.toList) = false →
        matchesAny ["restaurant", "cafe", "food"] (lowerL m.toList) = true →
        classify_category2 m = "Restaurant") ∧
      (matchesAny ["grocery", "mart", "supermarket"] (lowerL m.toList) = false →
        matchesAny ["hospital", "medical", "pharmacy"] (lowerL m.toList) = false →
        matchesAny ["restaurant", "cafe", "food"] (lowerL m.toList) = false →
        matchesAny ["uber", "ola", "flight", "rail"] (lowerL m.toList) = true →
        classify_category2 m = "Travel") ∧
      (matchesAny ["grocery", "mart", "supermarket"] (lowerL m.toList) = false →
        matchesAny ["hospital", "medical", "pharmacy"] (lowerL m.toList) = false →
        matchesAny ["restaurant", "cafe", "food"] (lowerL m.toList) = false →
        matchesAny ["uber", "ola", "flight", "rail"] (lowerL m.toList) = false →
        matchesAny ["electricity", "water", "gas"] (lowerL m.toList) = true →
        classify_category2 m = "Utilities") ∧
      (matchesAny (["grocery", "mart", "supermarket"] ++
          ["hospital", "medical", "pharmacy"] ++
          ["restaurant", "cafe", "food"] ++
          ["uber", "ola", "flight", "rail"] ++
          ["electricity", "water", "gas"]) (lowerL m.toList) = false →
        classify_category2 m = "Other") ∧
      (matchesAny (["grocery", "mart", "supermarket"] ++
          ["hospital", "medical", "pharmacy"] ++
          ["restaurant", "cafe", "food"] ++
          ["uber", "ola", "flight", "rail"] ++
          ["electricity", "water", "gas"]) (lowerL m.toList) = true →
        classify_category2 m ≠ "Other")) ∧
    (∀ m1 m2 : String, lowerL m1.toList = lowerL m2.toList →
      classify_category1 m1 = classify_category1 m2 ∧
      classify_category2 m1 = classify_category2 m2) := by
  refine ⟨rfl, rfl, ?_, ?_, ?_⟩
  · intro m
    refine ⟨?_, ?_, ?_, ?_, ?_, ?_, ?_⟩
    · intro h1
      by_cases hm : m = ""
      · subst hm; exact absurd h1 (by decide)
      · simp only [String.toList] at h1
        simp [classify_category1, hm, h1]
    · intro h1 h2
      by_cases hm : m = ""
      · subst hm; exact absurd h2 (by decide)
      · simp only [String.toList] at h1 h2
        simp [classify_category1, hm, h1, h2]
    · intro h1 h2 h3
      by_cases hm : m = ""
      · subst hm; exact absurd h3 (by decide)
      · simp only [String.toList] at h1 h2 h3
        simp [classify_category1, hm, h1, h2, h3]
    · intro h1 h2 h3 h4
      by_cases hm : m = ""
      · subst hm; exact absurd h4 (by decide)
      · simp only [String.toList] at h1 h2 h3 h4
        simp [classify_category1, hm, h1, h2, h3, h4]
    · intro h1 h2 h3 h4 h5
      by_cases hm : m = ""
      · subst hm; exact absurd h5 (by decide)
      · simp only [String.toList] at h1 h2 h3 h4 h5
        simp [classify_category1, hm, h1, h2, h3, h4, h5]
    · intro h
      by_cases hm : m = ""
      · subst hm; rfl
      · exact (classify1_other_iff m hm).mpr h
    · intro h
      by_cases hm : m = ""
      · subst hm; exact absurd h (by decide)
      · intro heq
        rw [(classify1_other_iff m hm).mp heq] at h
        exact absurd h (by simp)
  · intro m
    refine ⟨?_, ?_, ?_, ?_, ?_, ?_, ?_⟩
    · intro h1
      by_cases hm : m = ""
      · subst hm; exact absurd h1 (by decide)
      · simp only [String.toList] at h1
        simp [classify_category2, hm, h1]
    · intro h1 h2
      by_cases hm : m = ""
      · subst hm; exact absurd h2 (by decide)
      · simp only [String.toList] at h1 h2
        simp [classify_category2, hm, h1, h2]
    · intro h1 h2 h3
      by_cases hm : m = ""
      · subst hm; exact absurd h3 (by decide)
      · simp only [String.toList] at h1 h2 h3
        simp [classify_category2, hm, h1, h2, h3]
    · intro h1 h2 h3 h4
      by_cases hm : m = ""
      · subst hm; exact absurd h4 (by decide)
      · simp only [String.toList] at h1 h2 h3 h4
        simp [classify_category2, hm, h1, h2, h3, h4]
    · intro h1 h2 h3 h4 h5
      by_cases hm : m = ""
      · subst hm; exact absurd h5 (by decide)
      · simp only [String.toList] at h1 h2 h3 h4 h5
        simp [classify_category2, hm, h1, h2, h3, h4, h5]
    · intro h
      by_cases hm : m = ""
      · subst hm; rfl
      · exact (classify2_other_iff m hm).mpr h
    · intro h
      by_cases hm : m = ""
      · subst hm; exact absurd h (by decide)
      · intro heq
        rw [(classify2_other_iff m hm).mp heq] at h
        exact absurd h (by simp)
  · intro m1 m2 hl
    by_cases hm1 : m1 = ""
    · subst hm1
      have h2 : m2.toList = [] := by
        have := hl.symm
        simpa [lowerL] using this
      have : m2 = "" := strToList_eq_nil m2 h2
      subst this
      exact ⟨rfl, rfl⟩
    · by_cases hm2 : m2 = ""
      · subst hm2
        have h1 : m1.toList = [] := by simpa [lowerL] using hl
        exact absurd (strToList_eq_nil m1 h1) hm1
      · constructor
        · unfold classify_category1
          rw [if_neg hm1, if_neg hm2, hl]
        · unfold classify_category2
          rw [if_neg hm1, if_neg hm2, hl]

/-- C8 witness: concrete classifications through the theorem. -/
theorem c8_classifier_witness :
    classify_category1 "SuperMART" = "Groceries" ∧
    classify_category2 "City HOSPITAL" = "Medical" ∧
    classify_category1 "zzz" = "Other" :=
  ⟨(c8_classifier.2.2.1 "SuperMART").1 (by decide),
   (c8_classifier.2.2.2.1 "City HOSPITAL").2.1 (by decide) (by decide),
   (c8_classifier.2.2.1 "zzz").2.2.2.2.2.1 (by decide)⟩
